import Mathlib

/-!
Verification of the tree-support generator core (src/libslic3r/TreeSupport.cpp)
against its natural-language specification.

The development shallowly embeds the control flow of the C++ translation unit.
Pure integer arithmetic is translated directly (machine coordinates are
modelled as unbounded integers; the source validates that coordinates stay
within two to the thirtieth power, far below any overflow boundary of the
64-bit arithmetic used by the source).  The 2-D polygon algebra (Clipper and
the ClipperUtils helpers) is repository code that lives outside this
translation unit; following the specification it is modelled as an abstract
operation set over a carrier type, together with one concrete executable
instance (axis-aligned unit cells of one millimeter) used to evaluate the
embedded code on concrete inputs.  Floating-point fragments are modelled over
the rationals.
-/

set_option maxHeartbeats 4000000
set_option maxRecDepth 8000
set_option linter.unreachableTactic false
set_option linter.unusedTactic false

namespace TreeSupportProof

/-- A 2-D point in scaled integer coordinates (model of the Slic3r Point,
whose coordinates are machine integers; one millimeter is 1000000 scaled
units). -/
structure Pt where
  x : Int
  y : Int
deriving DecidableEq, Repr, Inhabited

instance : Add Pt := ⟨fun a b => ⟨a.x + b.x, a.y + b.y⟩⟩
instance : Sub Pt := ⟨fun a b => ⟨a.x - b.x, a.y - b.y⟩⟩

/-- Modelled from the spec: the fixed integer-per-millimeter scaling factor
(1 mm = 1000000 scaled units in PrusaSlicer). -/
def scaledMM : Int := 1000000

/-- The tiny-area threshold, sqr(scaled 0.001 mm) (TreeSupport.cpp:132). -/
def tinyAreaThreshold : Int := 1000000

/-- Modelled from the spec: SCALED_EPSILON of libslic3r (scaled 0.0001 mm). -/
def scaledEpsilon : Int := 100

/-- The LineStatus classification of a sampled tip point
(TreeSupport.cpp:62-70). -/
inductive LineStatus where
  | INVALID
  | TO_MODEL
  | TO_MODEL_GRACIOUS
  | TO_MODEL_GRACIOUS_SAFE
  | TO_BP
  | TO_BP_SAFE
deriving DecidableEq, Repr, Inhabited

/-- The avoidance kinds of the volume oracle.  Modelled from the spec
(the enum itself is declared in TreeModelVolumes.hpp, outside this
translation unit); the declaration order Slow, FastSafe, Fast is used for
the ordinal comparisons the source performs on the enum. -/
inductive AvoidanceType where
  | Slow
  | FastSafe
  | Fast
deriving DecidableEq, Repr, Inhabited

/-- Ordinal value of an AvoidanceType, used where the source applies
std::min to enum values. -/
def AvoidanceType.toOrd : AvoidanceType → Nat
  | .Slow => 0
  | .FastSafe => 1
  | .Fast => 2

/-- std::min on the avoidance enum (underlying integral comparison). -/
def AvoidanceType.minA (a b : AvoidanceType) : AvoidanceType :=
  if a.toOrd ≤ b.toOrd then a else b

/-- One area-increase setting of the influence propagator.  Field order and
meaning follow the aggregate initialization in TreeSupport.cpp:1907-1913. -/
structure AreaIncreaseSettings where
  type : AvoidanceType
  increase_speed : Int
  increase_radius : Bool
  no_error : Bool
  use_min_distance : Bool
  move : Bool
deriving DecidableEq, Repr, Inhabited

/-- The per-element state of an influence area.  Fields are the ones the
translation unit reads and writes; the struct itself is declared in
TreeSupport.hpp (outside this translation unit) and is modelled from the
spec (section 3, Element state).  The optional result_on_layer models the
is-set sentinel of the source.  elephant_foot_increases is a double in the
source and is modelled as a rational. -/
structure SupportElementState where
  target_height : Int
  target_position : Pt
  next_position : Pt
  layer_idx : Int
  effective_radius_height : Nat
  to_buildplate : Bool
  distance_to_top : Nat
  result_on_layer : Option Pt
  increased_to_model_radius : Int
  to_model_gracious : Bool
  elephant_foot_increases : Rat
  use_min_xy_dist : Bool
  supports_roof : Bool
  dont_move_until : Nat
  can_use_safe_radius : Bool
  missing_roof_layers : Nat
  skip_ovalisation : Bool
  last_area_increase : AreaIncreaseSettings
  deleted : Bool
  marked : Bool
deriving DecidableEq, Repr, Inhabited

/-- The configuration slice used by the embedded functions.  The settings
class lives in TreeSupport.hpp outside this translation unit; the two radius
projections (real radius and collision radius of an element state) are
therefore modelled from the spec as function-valued fields (section 3,
Radius function: monotone radius, collision radius possibly below the real
radius). -/
structure TreeSupportSettings where
  xy_distance : Int
  xy_min_distance : Int
  maximum_move_distance : Int
  maximum_move_distance_slow : Int
  branch_radius : Int
  diameter_scale_bp_radius : Rat
  diameter_angle_scale_factor : Rat
  min_dtt_to_model : Nat
  max_to_model_radius_increase : Int
  tip_layers : Nat
  support_rests_on_model : Bool
  collRadius : SupportElementState → Int
  realRadius : SupportElementState → Int

/-- An axis-aligned bounding box (model of the Eigen AlignedBox over scaled
coordinates). -/
structure Box where
  lo : Pt
  hi : Pt
deriving DecidableEq, Repr, Inhabited

/-- Closed-interval intersection test of Eigen AlignedBox.intersects. -/
def Box.intersects (a b : Box) : Bool :=
  a.lo.x ≤ b.hi.x && a.lo.y ≤ b.hi.y && b.lo.x ≤ a.hi.x && b.lo.y ≤ a.hi.y

/-- Grow a box by d in every direction. -/
def Box.inflate (a : Box) (d : Int) : Box :=
  ⟨⟨a.lo.x - d, a.lo.y - d⟩, ⟨a.hi.x + d, a.hi.y + d⟩⟩

/-- Merge of two optional bounding boxes (BoundingBox.merge; an absent box
models the undefined bounding box of an empty polygon set). -/
def Box.mergeO : Option Box → Option Box → Option Box
  | none, b => b
  | some a, none => some a
  | some a, some b =>
      some ⟨⟨min a.lo.x b.lo.x, min a.lo.y b.lo.y⟩, ⟨max a.hi.x b.hi.x, max a.hi.y b.hi.y⟩⟩

/-- Abstract polygon-set operations.  Modelled from the spec: the polygon
algebra (union, difference, intersection, offsetting, area, point
containment) is Clipper / ClipperUtils code outside this translation unit.
offsetP collapses the join-style arguments of the source offset calls;
clipBox models ClipperUtils.clip_clipper_polygons_with_subject_bbox (a
performance-only trimming); pickInside models the floating-point kernel of
move_inside (TreeSupport.cpp:1293-1394), returning some point placed into
the polygon set. -/
structure GeoOps (α : Type) where
  emptyP : α
  isEmpty : α → Bool
  union1 : α → α
  union2 : α → α → α
  inter : α → α → α
  diffP : α → α → α
  diffClipped : α → α → α
  offsetP : α → Int → α
  offsetPolylines : α → Int → α
  toPolylines : α → α
  simplifyP : α → Int → α
  clipBox : α → Box → α
  areaP : α → Int
  extentsP : α → Option Box
  containsPt : α → Pt → Bool
  pickInside : α → Pt → Pt

/-- Abstract volume oracle (section 4.1 of the spec; the implementation is
TreeModelVolumes, outside this translation unit). -/
structure VolumeOracle (α : Type) where
  getCollision : Int → Int → Bool → α
  getAvoidance : Int → Int → AvoidanceType → Bool → Bool → α
  getPlaceableAreas : Int → Int → α
  getWallRestriction : Int → Int → Bool → α
  ceilRadius : Int → Bool → Int

/-! ### Coordinate validation (TreeSupport.cpp:76-116, claim C8) -/

/-- validate_range on a single point (TreeSupport.cpp:76-81).  Returns true
exactly when the source function throws its domain exception. -/
def validateRangeFails (p : Pt) : Bool :=
  let hi : Int := 65536 * 16384
  p.x > hi || p.y > hi || -p.x > hi || -p.y > hi

/-- validate_range on a point collection (TreeSupport.cpp:83-87): the loop
propagates the first exception, so the collection version throws exactly
when some contained point is out of range. -/
def validateRangeFailsPoints (ps : List Pt) : Bool :=
  ps.any validateRangeFails

/-- validate_range on a polygon collection (TreeSupport.cpp:94-98): the
nested loops propagate the first exception. -/
def validateRangeFailsPolygons (pss : List (List Pt)) : Bool :=
  pss.any validateRangeFailsPoints

/-! ### Tip emission (TreeSupport.cpp:970-1012, claim C7) -/

/-- The tip-placer inputs captured by the addPointAsInfluenceArea closure. -/
structure TipConfig where
  support_rests_on_model : Bool
  min_radius : Int
  force_tip_to_roof : Bool
  min_xy_dist : Bool

/-- Default-constructed AreaIncreaseSettings (value-initialized aggregate of
the source). -/
def defaultAreaIncrease : AreaIncreaseSettings :=
  ⟨AvoidanceType.Slow, 0, false, false, false, false⟩

/-- The state produced for one kept tip sample by addPointAsInfluenceArea
(TreeSupport.cpp:972-1012).  Returns none when the point is rejected:
either an invalid support point (no build-plate reach while support may not
rest on the model) or a duplicate under the spatial hash.  The hash grid
divides coordinates by (min_radius + 1) / 10 with C truncating division. -/
def addPointAsInfluenceArea (cfg : TipConfig) (already : List Pt) (p : Pt)
    (status : LineStatus) (dtt : Nat) (insertLayer : Int) (dontMoveUntil : Nat)
    (roof skipOval : Bool) : Option SupportElementState :=
  let toBp := status = LineStatus.TO_BP ∨ status = LineStatus.TO_BP_SAFE
  let gracious := toBp ∨ status = LineStatus.TO_MODEL_GRACIOUS ∨
      status = LineStatus.TO_MODEL_GRACIOUS_SAFE
  let safeRadius := status = LineStatus.TO_BP_SAFE ∨
      status = LineStatus.TO_MODEL_GRACIOUS_SAFE
  if ¬cfg.support_rests_on_model ∧ ¬toBp then none
  else
    let d := (cfg.min_radius + 1) / 10
    let hashPos : Pt := ⟨p.x / d, p.y / d⟩
    if hashPos ∈ already then none
    else some
      { target_height := insertLayer
        target_position := p
        next_position := p
        layer_idx := insertLayer
        effective_radius_height := dtt
        to_buildplate := decide toBp
        distance_to_top := dtt
        result_on_layer := some p
        increased_to_model_radius := 0
        to_model_gracious := decide gracious
        elephant_foot_increases := 0
        use_min_xy_dist := cfg.min_xy_dist
        supports_roof := roof
        dont_move_until := dontMoveUntil
        can_use_safe_radius := decide safeRadius
        missing_roof_layers := if cfg.force_tip_to_roof then dontMoveUntil else 0
        skip_ovalisation := skipOval
        last_area_increase := defaultAreaIncrease
        deleted := false
        marked := false }

/-! ### Post-success state update of the propagator
(TreeSupport.cpp:1817-1832, claims C3 and C4) -/

/-- The state update performed when an area-increase setting succeeds
(TreeSupport.cpp lines 1817-1832), together with the bypass-merge flag of
line 1823.  The argument r is the state returned by increase_single_area
(which never touches can_use_safe_radius or use_min_xy_dist), parentResult
is the result_on_layer of the parent element. -/
def applyAreaIncreaseSuccess (cfg : TreeSupportSettings)
    (settings : AreaIncreaseSettings) (parentResult : Option Pt)
    (r : SupportElementState) : SupportElementState × Bool :=
  let elem := { r with last_area_increase := settings }
  let bypass := !settings.move ||
      (settings.use_min_distance && decide (elem.distance_to_top < cfg.tip_layers))
  let elem :=
    if settings.move then { elem with dont_move_until := 0 }
    else { elem with result_on_layer := parentResult }
  let elem := { elem with can_use_safe_radius := settings.type ≠ AvoidanceType.Fast }
  let elem :=
    if ¬settings.use_min_distance then { elem with use_min_xy_dist := false }
    else elem
  (elem, bypass)

/-! ### Interface preference of the finalizer
(TreeSupport.cpp:2987-3028, claim C9) -/

/-- The interface-preference policy values (the source enum; the spec names
InterfaceAreaOverwritesSupport as InterfaceOverwritesBase and
SupportAreaOverwritesInterface as BaseOverwritesInterface). -/
inductive InterfacePref where
  | InterfaceAreaOverwritesSupport
  | SupportAreaOverwritesInterface
  | InterfaceLinesOverwriteSupport
  | SupportLinesOverwriteInterface
  | Nothing
deriving DecidableEq, Repr, Inhabited

/-- The interface-preference reconciliation of
finalize_interface_and_support_areas (TreeSupport.cpp:2987-3028): performed
only when both the base polygons and the roof polygons are non-empty; the
two line-based variants are asserted unreachable in the source and fall
through to the no-op case.  Returns (base, roof) after the policy. -/
def applyInterfacePref {α : Type} (g : GeoOps α) (pref : InterfacePref)
    (base roofPolys : α) : α × α :=
  if g.isEmpty roofPolys || g.isEmpty base then (base, roofPolys)
  else
    match pref with
    | .InterfaceAreaOverwritesSupport => (g.diffP base roofPolys, roofPolys)
    | .SupportAreaOverwritesInterface => (base, g.diffP roofPolys base)
    | .InterfaceLinesOverwriteSupport => (base, roofPolys)
    | .SupportLinesOverwriteInterface => (base, roofPolys)
    | .Nothing => (base, roofPolys)

/-! ### safe_union (TreeSupport.cpp:716-748, claim C10) -/

/-- safe_union (TreeSupport.cpp:716-748): the plain union, with a fallback
that offsets the line-ified inputs outward by scaled 0.002 mm when the
plain union destroyed the area. -/
def safeUnionP {α : Type} (g : GeoOps α) (first second : α) : α :=
  if !g.isEmpty first || !g.isEmpty second then
    let result := g.union2 first second
    if g.isEmpty result then
      g.union2 (g.offsetPolylines (g.toPolylines first) 2000)
               (g.offsetPolylines (g.toPolylines second) 2000)
    else result
  else g.emptyP

/-! ### safe_offset_inc (TreeSupport.cpp:759-816) -/

/-- safe_offset_inc (TreeSupport.cpp:759-816): offset a polygon set by
distance in several steps, subtracting the collision after each step so the
area cannot lag through an obstacle.  The collision trimming buffer is
computed once from the initial area (the source memoizes it lazily through
a by-reference capture); integer divisions follow the C truncating
semantics, which Int division shares for the non-negative operands used
here. -/
def safeOffsetInc {α : Type} (g : GeoOps α) (me : α) (distance : Int)
    (collision : α) (safeStepSize lastStepOffsetWithoutCheck : Int)
    (minAmountOffset : Nat) : α :=
  let doFinalDiff0 := lastStepOffsetWithoutCheck = 0
  let ret := safeUnionP g me g.emptyP
  let collisionTrimmed : α :=
    if g.isEmpty collision then g.emptyP
    else
      match g.extentsP ret with
      | none => g.clipBox collision ⟨⟨0, 0⟩, ⟨0, 0⟩⟩
      | some bb => g.clipBox collision (bb.inflate (max 0 distance + scaledEpsilon))
  if distance = 0 then
    if doFinalDiff0 then g.diffP ret collisionTrimmed else g.union1 ret
  else if safeStepSize < 0 ∨ lastStepOffsetWithoutCheck < 0 then
    if doFinalDiff0 then g.diffP ret collisionTrimmed else g.union1 ret
  else
    let stepSize0 := safeStepSize
    let steps0 : Int :=
      if distance > lastStepOffsetWithoutCheck then
        (distance - lastStepOffsetWithoutCheck) / stepSize0
      else 0
    let sd1 : Int × Bool :=
      if distance - steps0 * stepSize0 > lastStepOffsetWithoutCheck then
        if (steps0 + 1) * stepSize0 ≤ distance then (steps0 + 1, doFinalDiff0)
        else (steps0, true)
      else (steps0, doFinalDiff0)
    let steps1 := sd1.1
    let doFinalDiff := sd1.2
    let b : Int := if distance < lastStepOffsetWithoutCheck ∨ distance % stepSize0 ≠ 0 then 1 else 0
    let ss : Int × Int :=
      if steps1 + b < (minAmountOffset : Int) ∧ minAmountOffset > 1 then
        let s2 := distance / (minAmountOffset : Int)
        if s2 ≥ safeStepSize then (safeStepSize, (minAmountOffset : Int))
        else (s2, distance / s2)
      else (stepSize0, steps1)
    let stepSize := ss.1
    let steps := ss.2
    let ret := (List.range steps.toNat).foldl
      (fun acc i =>
        let acc := g.diffP (g.offsetP acc stepSize) collisionTrimmed
        if i % 10 = 7 then g.simplifyP acc 15000 else acc) ret
    let lastOffset := distance - steps * stepSize
    let ret := if lastOffset > scaledEpsilon then g.offsetP ret lastOffset else ret
    let ret := g.simplifyP ret 15000
    let ret := if doFinalDiff then g.diffP ret collisionTrimmed else ret
    g.union1 ret

/-! ### Merging data and pairwise merge
(TreeSupport.cpp:1555-1589, 1872-2061, claims C5 and C6) -/

/-- The three influence-area channels of an element being merged
(TreeSupport.cpp:1555-1568). -/
structure InfluenceAreas (α : Type) where
  influence_areas : α
  to_bp_areas : α
  to_model_areas : α
deriving DecidableEq, Repr

/-- An element row of the merging stage (TreeSupport.cpp:1570-1589). -/
structure SupportElementMerging (α : Type) where
  state : SupportElementState
  parents : List Nat
  areas : InfluenceAreas α
  bbox_data : Box
deriving DecidableEq, Repr

instance {α : Type} [Inhabited α] : Inhabited (InfluenceAreas α) :=
  ⟨⟨default, default, default⟩⟩

instance {α : Type} [Inhabited α] : Inhabited (SupportElementMerging α) :=
  ⟨⟨default, [], default, default⟩⟩

/-- set_bbox of SupportElementMerging (TreeSupport.cpp:1583-1584): the box
grown by SCALED_EPSILON in every direction. -/
def setBBox (b : Box) : Box := b.inflate scaledEpsilon

/-- merge_support_element_states (TreeSupport.cpp:1872-1916).  Fields not
assigned by the source function keep their value-initialized defaults
(result_on_layer unset, increased_to_model_radius zero - the caller
overwrites it -, deleted and marked false). -/
def mergeSupportElementStates (cfg : TreeSupportSettings)
    (first second : SupportElementState) (nextPos : Pt) (layerIdx : Int) :
    SupportElementState :=
  let base : SupportElementState :=
    { target_height := if first.target_height > second.target_height then first.target_height else second.target_height
      target_position := if first.target_height > second.target_height then first.target_position else second.target_position
      next_position := nextPos
      layer_idx := layerIdx
      effective_radius_height := max first.effective_radius_height second.effective_radius_height
      to_buildplate := first.to_buildplate && second.to_buildplate
      distance_to_top := max first.distance_to_top second.distance_to_top
      result_on_layer := none
      increased_to_model_radius := 0
      to_model_gracious := first.to_model_gracious && second.to_model_gracious
      elephant_foot_increases := 0
      use_min_xy_dist := first.use_min_xy_dist || second.use_min_xy_dist
      supports_roof := first.supports_roof || second.supports_roof
      dont_move_until := max first.dont_move_until second.dont_move_until
      can_use_safe_radius := first.can_use_safe_radius || second.can_use_safe_radius
      missing_roof_layers := min first.missing_roof_layers second.missing_roof_layers
      skip_ovalisation := false
      last_area_increase := defaultAreaIncrease
      deleted := false
      marked := false }
  let base :=
    if cfg.diameter_scale_bp_radius > 0 then
      let footIncreaseRadius : Int :=
        |max (cfg.collRadius second) (cfg.collRadius first) - cfg.collRadius base|
      { base with elephant_foot_increases :=
          (footIncreaseRadius : Rat) /
            ((cfg.branch_radius : Rat) * (cfg.diameter_scale_bp_radius - cfg.diameter_angle_scale_factor)) }
    else base
  { base with last_area_increase :=
      { type := AvoidanceType.minA first.last_area_increase.type second.last_area_increase.type
        increase_speed := min first.last_area_increase.increase_speed second.last_area_increase.increase_speed
        increase_radius := first.last_area_increase.increase_radius || second.last_area_increase.increase_radius
        no_error := first.last_area_increase.no_error || second.last_area_increase.no_error
        use_min_distance := first.last_area_increase.use_min_distance && second.last_area_increase.use_min_distance
        move := first.last_area_increase.move || second.last_area_increase.move } }

/-- The intersect_small_with_bigger lambda of
merge_influence_areas_two_elements (TreeSupport.cpp:1994-2001): the area of
the smaller-radius element inflated by the real radius difference through a
collision-aware offset, intersected with the area of the bigger one. -/
def mergeInflate {α : Type} (g : GeoOps α) (cfg : TreeSupportSettings)
    (vol : VolumeOracle α) (layerIdx : Int)
    (dst src : SupportElementMerging α) (small bigP : α) : α :=
  let dstBigger := cfg.collRadius dst.state > cfg.collRadius src.state
  let smaller := if dstBigger then src else dst
  let bigger := if dstBigger then dst else src
  let realRadiusDelta := |cfg.realRadius bigger.state - cfg.realRadius smaller.state|
  let smallerCollRadius := cfg.collRadius smaller.state
  let useMinRadius := bigger.state.use_min_xy_dist && smaller.state.use_min_xy_dist
  let collision := vol.getCollision smallerCollRadius (layerIdx - 1) useMinRadius
  g.inter
    (safeOffsetInc g small realRadiusDelta collision
      (2 * (cfg.xy_distance + smallerCollRadius - 3)) 0 0)
    bigP

/-- The intersection tested by the pairwise merge predicate
(TreeSupport.cpp:2002-2004): the to-build-plate channels when both elements
reach the build plate, the to-model channels otherwise. -/
def mergeIntersectArea {α : Type} (g : GeoOps α) (cfg : TreeSupportSettings)
    (vol : VolumeOracle α) (layerIdx : Int)
    (dst src : SupportElementMerging α) : α :=
  let dstBigger := cfg.collRadius dst.state > cfg.collRadius src.state
  let smaller := if dstBigger then src else dst
  let bigger := if dstBigger then dst else src
  let mergingToBp := dst.state.to_buildplate && src.state.to_buildplate
  mergeInflate g cfg vol layerIdx dst src
    (if mergingToBp then smaller.areas.to_bp_areas else smaller.areas.to_model_areas)
    (if mergingToBp then bigger.areas.to_bp_areas else bigger.areas.to_model_areas)

/-- The radius-increase accumulator of a to-model with to-build-plate merge
(TreeSupport.cpp:1950-1968): zero unless exactly one of the two elements
reaches the build plate and the build-plate one is the thicker. -/
def mergeIncrRadius {α : Type} (cfg : TreeSupportSettings)
    (dst src : SupportElementMerging α) : Int :=
  let mergingToBp := dst.state.to_buildplate && src.state.to_buildplate
  if ¬mergingToBp ∧ dst.state.to_buildplate ≠ src.state.to_buildplate then
    let rdst := cfg.realRadius dst.state
    let rsrc := cfg.realRadius src.state
    if dst.state.to_buildplate then
      if rsrc < rdst then src.state.increased_to_model_radius + rdst - rsrc else 0
    else
      if rsrc > rdst then dst.state.increased_to_model_radius + rsrc - rdst else 0
  else 0

/-- The successful tail of merge_influence_areas_two_elements
(TreeSupport.cpp:2015-2060): compute the merged state, the merged area
channels and the merged bounding box, clear the source element. -/
def mergeSuccessResult {α : Type} (g : GeoOps α) (cfg : TreeSupportSettings)
    (vol : VolumeOracle α) (layerIdx : Int)
    (dst src : SupportElementMerging α) :
    Bool × SupportElementMerging α × SupportElementMerging α :=
  let dstBigger := cfg.collRadius dst.state > cfg.collRadius src.state
  let smaller := if dstBigger then src else dst
  let bigger := if dstBigger then dst else src
  let mergingToBp := dst.state.to_buildplate && src.state.to_buildplate
  let incrRadius := mergeIncrRadius cfg dst src
  let intersectA := mergeIntersectArea g cfg vol layerIdx dst src
  let newPos :=
    if g.containsPt intersectA dst.state.next_position then dst.state.next_position
    else g.pickInside intersectA dst.state.next_position
  let newState0 := mergeSupportElementStates cfg dst.state src.state newPos (layerIdx - 1)
  let newState :=
    { newState0 with increased_to_model_radius :=
        (if incrRadius = 0 then
          max dst.state.increased_to_model_radius src.state.increased_to_model_radius
        else incrRadius) }
  let influenceAreas := safeUnionP g
    (mergeInflate g cfg vol layerIdx dst src
      smaller.areas.influence_areas bigger.areas.influence_areas)
    intersectA
  let toModelAreas :=
    if mergingToBp ∧ cfg.support_rests_on_model then
      if newState.to_model_gracious then
        safeUnionP g
          (mergeInflate g cfg vol layerIdx dst src
            smaller.areas.to_model_areas bigger.areas.to_model_areas)
          intersectA
      else influenceAreas
    else g.emptyP
  let newAreas : InfluenceAreas α :=
    { influence_areas := influenceAreas
      to_bp_areas := if mergingToBp then intersectA else g.emptyP
      to_model_areas :=
        if mergingToBp then
          (if cfg.support_rests_on_model then toModelAreas else g.emptyP)
        else intersectA }
  let bboxO := Box.mergeO
    (Box.mergeO (g.extentsP newAreas.influence_areas) (g.extentsP newAreas.to_bp_areas))
    (g.extentsP newAreas.to_model_areas)
  let newBox := setBBox (bboxO.getD ⟨⟨0, 0⟩, ⟨0, 0⟩⟩)
  ( true
  , { state := newState
      parents := dst.parents ++ src.parents
      areas := newAreas
      bbox_data := newBox }
  , { src with areas := ⟨g.emptyP, g.emptyP, g.emptyP⟩, parents := [] } )

/-- merge_influence_areas_two_elements (TreeSupport.cpp:1918-2061) as a
function: returns the success flag together with the updated dst and src.
Every abort path of the source returns before mutating either element, so
the failing result carries both elements unchanged. -/
def mergeTwoElements {α : Type} (g : GeoOps α) (cfg : TreeSupportSettings)
    (vol : VolumeOracle α) (layerIdx : Int)
    (dst src : SupportElementMerging α) :
    Bool × SupportElementMerging α × SupportElementMerging α :=
  if dst.state.to_model_gracious ≠ src.state.to_model_gracious ∨
     dst.state.use_min_xy_dist ≠ src.state.use_min_xy_dist then (false, dst, src)
  else
    let dstBigger := cfg.collRadius dst.state > cfg.collRadius src.state
    let smaller := if dstBigger then src else dst
    let bigger := if dstBigger then dst else src
    let realRadiusDelta := |cfg.realRadius bigger.state - cfg.realRadius smaller.state|
    if ¬(Box.intersects (smaller.bbox_data.inflate realRadiusDelta) bigger.bbox_data) then
      (false, dst, src)
    else
      let mergingToBp := dst.state.to_buildplate && src.state.to_buildplate
      if ¬mergingToBp ∧ dst.state.to_buildplate ≠ src.state.to_buildplate ∧
         mergeIncrRadius cfg dst src > cfg.max_to_model_radius_increase then (false, dst, src)
      else if ¬mergingToBp ∧ ¬dst.state.supports_roof ∧ ¬src.state.supports_roof ∧
         max src.state.distance_to_top dst.state.distance_to_top < cfg.min_dtt_to_model then
        (false, dst, src)
      else if ¬bigger.state.can_use_safe_radius ∧ smaller.state.can_use_safe_radius then
        (false, dst, src)
      else if g.areaP (mergeIntersectArea g cfg vol layerIdx dst src) ≤ tinyAreaThreshold then
        (false, dst, src)
      else if g.areaP (g.offsetP (mergeIntersectArea g cfg vol layerIdx dst src) (-25000))
          ≤ tinyAreaThreshold then
        (false, dst, src)
      else mergeSuccessResult g cfg vol layerIdx dst src

/-! ### Output placement of freshly increased areas
(TreeSupport.cpp:1845-1860 and 2297-2316, claim C4) -/

/-- The merging-area row built for a successfully increased element
(TreeSupport.cpp:1845-1860).  incWoCollision, toBpData and toModelData are
the polygon sets computed by increase_single_area; a bypassed element keeps
its to-build-plate and to-model channels empty, while a regular element
stores the to-build-plate channel only when it reaches the build plate and
the to-model channel only when support may rest on the model. -/
def buildMergingArea {α : Type} (g : GeoOps α) (cfg : TreeSupportSettings)
    (vol : VolumeOracle α) (layerIdx : Int) (settings : AreaIncreaseSettings)
    (parentResult : Option Pt) (r : SupportElementState)
    (incWoCollision toBpData toModelData : α) (parents : List Nat) :
    SupportElementMerging α :=
  let eb := applyAreaIncreaseSuccess cfg settings parentResult r
  let elem := eb.1
  let bypass := eb.2
  let radius := cfg.collRadius r
  let maxInfluenceArea := safeUnionP g
    (g.diffClipped incWoCollision (vol.getCollision radius (layerIdx - 1) elem.use_min_xy_dist))
    (safeUnionP g toBpData toModelData)
  { state := elem
    parents := parents
    areas :=
      { influence_areas := maxInfluenceArea
        to_bp_areas := if !bypass && elem.to_buildplate then toBpData else g.emptyP
        to_model_areas := if !bypass && cfg.support_rests_on_model then toModelData else g.emptyP }
    bbox_data := setBBox ((g.extentsP maxInfluenceArea).getD ⟨⟨0, 0⟩, ⟨0, 0⟩⟩) }

/-- The per-element routing decision of the remove_if pass of
create_layer_pathing (TreeSupport.cpp:2299-2316): none drops an element
whose influence area was erased completely, some true moves a fully
constructed element to the output layer before the merger runs, some false
keeps the element as a merge candidate. -/
def mergingAreaRoute {α : Type} (g : GeoOps α) (e : SupportElementMerging α) :
    Option Bool :=
  if g.isEmpty e.areas.influence_areas then none
  else if g.isEmpty e.areas.to_bp_areas && g.isEmpty e.areas.to_model_areas then some true
  else some false

/-- The remove_if pass over a whole layer: the elements moved to the output
layer (in traversal order) and the elements kept for merging. -/
def placeConstructed {α : Type} (g : GeoOps α)
    (elems : List (SupportElementMerging α)) :
    List (SupportElementMerging α) × List (SupportElementMerging α) :=
  elems.foldl
    (fun acc e =>
      match mergingAreaRoute g e with
      | none => acc
      | some true => (acc.1 ++ [e], acc.2)
      | some false => (acc.1, acc.2 ++ [e]))
    ([], [])

/-! ### The merger (TreeSupport.cpp:2082-2251, claim C6) -/

/-- One pairwise merge attempt as the merging loops consume it: on success
the updated dst (src is cleared by the source and immediately overwritten
or abandoned by the loops). -/
def mergeStepO {α : Type} (g : GeoOps α) (cfg : TreeSupportSettings)
    (vol : VolumeOracle α) (layerIdx : Int)
    (dst src : SupportElementMerging α) : Option (SupportElementMerging α) :=
  match mergeTwoElements g cfg vol layerIdx dst src with
  | (true, d, _) => some d
  | (false, _, _) => none

/-- merge_influence_areas_leaves (TreeSupport.cpp:2082-2103) on the index
range i < e of the array: quadratic pairwise merging with swap-from-the-end
compaction.  After a merge the outer element is retested against the whole
remaining range (the source skips the outer increment through its goto).
Structural fuel makes the recursion computable; the caller supplies enough
fuel for the loop to run to completion. -/
def mergeLeavesGo {α : Type} [Inhabited α] (g : GeoOps α)
    (cfg : TreeSupportSettings) (vol : VolumeOracle α) (layerIdx : Int) :
    Nat → Array (SupportElementMerging α) → Nat → Nat → Nat →
    Array (SupportElementMerging α) × Nat
  | 0, a, _, _, e => (a, e)
  | fuel + 1, a, i, j, e =>
    if i + 1 < e then
      if j < e then
        match mergeStepO g cfg vol layerIdx a[i]! a[j]! with
        | some d =>
          let a := a.set! i d
          let e1 := e - 1
          let a := if j ≠ e1 then a.set! j a[e1]! else a
          mergeLeavesGo g cfg vol layerIdx fuel a i (i + 1) e1
        | none => mergeLeavesGo g cfg vol layerIdx fuel a i (j + 1) e
      else mergeLeavesGo g cfg vol layerIdx fuel a (i + 1) (i + 2) e
    else (a, e)

/-- merge_influence_areas_leaves on the range [b, e): returns the array and
the new end of the live range. -/
def mergeLeaves {α : Type} [Inhabited α] (g : GeoOps α)
    (cfg : TreeSupportSettings) (vol : VolumeOracle α) (layerIdx : Int)
    (a : Array (SupportElementMerging α)) (b e : Nat) :
    Array (SupportElementMerging α) × Nat :=
  mergeLeavesGo g cfg vol layerIdx ((e + 2) * (e + 2) * (e + 2)) a b (b + 1) e

/-- The first inner loop of merge_influence_areas_two_sets
(TreeSupport.cpp:2119-2129): scan dst indices d < de for the first merge
with the src element at s; on success compact src by moving the element at
sb into the slot s and return the merged index together with the next dst
index.  Returns the array, the new src begin and the optional merge
position. -/
def twoSetsPhase1 {α : Type} [Inhabited α] (g : GeoOps α)
    (cfg : TreeSupportSettings) (vol : VolumeOracle α) (layerIdx : Int) :
    Nat → Array (SupportElementMerging α) → Nat → Nat → Nat → Nat →
    Array (SupportElementMerging α) × Nat × Option (Nat × Nat)
  | 0, a, _, _, _, sb => (a, sb, none)
  | fuel + 1, a, d, de, s, sb =>
    if d < de then
      match mergeStepO g cfg vol layerIdx a[d]! a[s]! with
      | some m =>
        let a := a.set! d m
        let a := if s ≠ sb then a.set! s a[sb]! else a
        (a, sb + 1, some (d, d + 1))
      | none => twoSetsPhase1 g cfg vol layerIdx fuel a (d + 1) de s sb
    else (a, sb, none)

/-- The second inner loop of merge_influence_areas_two_sets
(TreeSupport.cpp:2130-2136): keep merging the freshly merged element at m
with the remaining dst elements, compacting dst from the end. -/
def twoSetsPhase2 {α : Type} [Inhabited α] (g : GeoOps α)
    (cfg : TreeSupportSettings) (vol : VolumeOracle α) (layerIdx : Int) :
    Nat → Array (SupportElementMerging α) → Nat → Nat → Nat →
    Array (SupportElementMerging α) × Nat
  | 0, a, _, _, e => (a, e)
  | fuel + 1, a, m, d, e =>
    if d < e then
      match mergeStepO g cfg vol layerIdx a[m]! a[d]! with
      | some v =>
        let a := a.set! m v
        let e1 := e - 1
        let a := if d ≠ e1 then a.set! d a[e1]! else a
        twoSetsPhase2 g cfg vol layerIdx fuel a m d e1
      | none => twoSetsPhase2 g cfg vol layerIdx fuel a m (d + 1) e
    else (a, e)

/-- The outer src loop of merge_influence_areas_two_sets
(TreeSupport.cpp:2118-2137).  Carries the dst end and the src begin. -/
def twoSetsOuter {α : Type} [Inhabited α] (g : GeoOps α)
    (cfg : TreeSupportSettings) (vol : VolumeOracle α) (layerIdx : Int) :
    Nat → Array (SupportElementMerging α) → Nat → Nat → Nat → Nat → Nat →
    Array (SupportElementMerging α) × Nat × Nat
  | 0, a, _, de, sb, _, _ => (a, de, sb)
  | fuel + 1, a, db, de, sb, s, se =>
    if s < se then
      match twoSetsPhase1 g cfg vol layerIdx (de - db) a db de s sb with
      | (a1, sb1, some md) =>
        let p2 := twoSetsPhase2 g cfg vol layerIdx (de - md.2) a1 md.1 md.2 de
        twoSetsOuter g cfg vol layerIdx fuel p2.1 db p2.2 sb1 (s + 1) se
      | (a1, sb1, none) =>
        twoSetsOuter g cfg vol layerIdx fuel a1 db de sb1 (s + 1) se
    else (a, de, sb)

/-- The final compaction of merge_influence_areas_two_sets
(TreeSupport.cpp:2139-2144): move the unmerged src elements down to the dst
end. -/
def twoSetsCompact {α : Type} [Inhabited α] :
    Nat → Array (SupportElementMerging α) → Nat → Nat → Nat →
    Array (SupportElementMerging α) × Nat
  | 0, a, de, _, _ => (a, de)
  | fuel + 1, a, de, sb, se =>
    if sb < se then twoSetsCompact fuel (a.set! de a[sb]!) (de + 1) (sb + 1) se
    else (a, de)

/-- merge_influence_areas_two_sets (TreeSupport.cpp:2105-2147) on the dst
range [db, de) and the src range [sb, se): returns the array and the new
end of the combined live range. -/
def twoSetsRun {α : Type} [Inhabited α] (g : GeoOps α)
    (cfg : TreeSupportSettings) (vol : VolumeOracle α) (layerIdx : Int)
    (a : Array (SupportElementMerging α)) (db de sb se : Nat) :
    Array (SupportElementMerging α) × Nat :=
  let o := twoSetsOuter g cfg vol layerIdx (se - sb) a db de sb sb se
  let a1 := o.1
  let de1 := o.2.1
  let sb1 := o.2.2
  if de1 = sb1 then (a1, se)
  else twoSetsCompact (se - sb1) a1 de1 sb1 se

/-- The initial bucket ranges of merge_influence_areas
(TreeSupport.cpp:2193-2218) for n influence areas and tc worker threads,
together with the number of buckets processed by the first merging round
(a trailing single-element bucket is skipped by that round). -/
def bucketsRaw (nbinit bsize : Nat) : List (Nat × Nat) :=
  (List.range nbinit).map (fun i => (i * bsize, i * bsize + bsize))

/-- The final bucket adjustment (TreeSupport.cpp:2210-2217): clamp the last
bucket to the array end, or append the single leftover element as its own
bucket. -/
def bucketFixup (n nbinit bsize : Nat) (buckets : List (Nat × Nat)) :
    List (Nat × Nat) :=
  match buckets.getLast? with
  | none => [(0, n)]
  | some bl =>
    if bl.2 ≥ n then buckets.dropLast ++ [(bl.1, min bl.2 n)]
    else buckets ++ [(nbinit * bsize, n)]

def bucketData (n tc : Nat) : List (Nat × Nat) × Nat :=
  let nbmin := (n + 2) / 4
  let nbmax := n / 2
  let ib : Nat × Nat := if nbmin ≥ tc then (nbmin, 4) else (nbmax, 2)
  let nbinit := ib.1
  let bsize := ib.2
  (bucketFixup n nbinit bsize (bucketsRaw nbinit bsize), nbinit)

/-- The first merging round (TreeSupport.cpp:2221-2229): run the quadratic
in-bucket merge on the first k buckets, updating their live ends. -/
def round1Go {α : Type} [Inhabited α] (g : GeoOps α)
    (cfg : TreeSupportSettings) (vol : VolumeOracle α) (layerIdx : Int) :
    Array (SupportElementMerging α) → List (Nat × Nat) → Nat →
    Array (SupportElementMerging α) × List (Nat × Nat)
  | a, [], _ => (a, [])
  | a, bs, 0 => (a, bs)
  | a, (s, e) :: rest, k + 1 =>
    let le := mergeLeaves g cfg vol layerIdx a s e
    let r := round1Go g cfg vol layerIdx le.1 rest k
    (r.1, (s, le.2) :: r.2)

/-- One folding round (TreeSupport.cpp:2233-2249): merge adjacent bucket
pairs with merge_influence_areas_two_sets, carrying a trailing unpaired
bucket. -/
def foldPairs {α : Type} [Inhabited α] (g : GeoOps α)
    (cfg : TreeSupportSettings) (vol : VolumeOracle α) (layerIdx : Int) :
    Array (SupportElementMerging α) → List (Nat × Nat) →
    Array (SupportElementMerging α) × List (Nat × Nat)
  | a, b0 :: b1 :: rest =>
    let t := twoSetsRun g cfg vol layerIdx a b0.1 b0.2 b1.1 b1.2
    let r := foldPairs g cfg vol layerIdx t.1 rest
    (r.1, (b0.1, t.2) :: r.2)
  | a, bs => (a, bs)

/-- The folding loop: halve the bucket list until one bucket remains. -/
def foldRounds {α : Type} [Inhabited α] (g : GeoOps α)
    (cfg : TreeSupportSettings) (vol : VolumeOracle α) (layerIdx : Int) :
    Nat → Array (SupportElementMerging α) → List (Nat × Nat) →
    Array (SupportElementMerging α) × List (Nat × Nat)
  | 0, a, bs => (a, bs)
  | fuel + 1, a, bs =>
    if bs.length > 1 then
      let r := foldPairs g cfg vol layerIdx a bs
      foldRounds g cfg vol layerIdx fuel r.1 r.2
    else (a, bs)

/-- merge_influence_areas (TreeSupport.cpp:2162-2251).  The AABB-tree build
reorders the input in place; it is repository code outside this translation
unit and is modelled from the spec as a reorder function parameter.  tc
models the worker-thread count that sizes the initial buckets.  The result
is the concatenation of the live bucket ranges, which is exactly the set of
elements the caller later finds carrying a non-empty influence area. -/
def mergeInfluenceAreas {α : Type} [Inhabited α] (g : GeoOps α)
    (cfg : TreeSupportSettings) (vol : VolumeOracle α) (layerIdx : Int)
    (tc : Nat)
    (reorder : List (SupportElementMerging α) → List (SupportElementMerging α))
    (input : List (SupportElementMerging α)) : List (SupportElementMerging α) :=
  if input.isEmpty then []
  else
    let arr := (reorder input).toArray
    let n := arr.size
    let bd := bucketData n tc
    let r1 := round1Go g cfg vol layerIdx arr bd.1 bd.2
    let r2 := foldRounds g cfg vol layerIdx r1.2.length r1.1 r1.2
    r2.2.flatMap (fun r => ((r2.1.toList.drop r.1).take (r.2 - r.1)))

/-! ### The organic collision-avoidance nudge
(TreeSupport.cpp:3589-3631, claim C2) -/

/-- The collision-avoidance nudge applied to one non-locked collision
sphere in one iteration of organic_smooth_branches_avoid_collisions
(TreeSupport.cpp:3622-3631), over the rationals (the source computes in
unscaled millimeters with doubles).  pos and coll are the 2-D sphere center
and the deepest collision point, depth the deepest penetration depth,
invNorm the reciprocal Euclidean norm of pos - coll as produced by
normalized().  The constants are collision_extra_gap = 0.1 mm and
max_nudge_collision_avoidance = 0.5 mm (lines 3589-3590).  Note that the
source first builds nudge_vector of length nudge_dist and then adds
nudge_vector * nudge_dist to the position. -/
def organicNudgeStep (pos coll : Rat × Rat) (depth invNorm : Rat) : Rat × Rat :=
  if depth > 0 then
    let nudgeDist := min (max 0 (depth + 1 / 10)) (1 / 2)
    let nvx := (pos.1 - coll.1) * invNorm * nudgeDist
    let nvy := (pos.2 - coll.2) * invNorm * nudgeDist
    (pos.1 + nvx * nudgeDist, pos.2 + nvy * nudgeDist)
  else pos

/-! ### The node resolver (TreeSupport.cpp:2361-2614, claim C1) -/

/-- A fully constructed support element (SupportElement of TreeSupport.hpp,
modelled from the spec): state, parent indices into the layer above, and
the influence area. -/
structure SupportElement (α : Type) where
  state : SupportElementState
  parents : List Nat
  influence_area : α
deriving DecidableEq, Repr

instance {α : Type} [Inhabited α] : Inhabited (SupportElement α) :=
  ⟨⟨default, [], default⟩⟩

/-- move_inside_if_outside (TreeSupport.cpp:1396-1401): keep the point when
it already lies inside the polygon set, otherwise let the move_inside
kernel place it into the set. -/
def moveInsideIfOutside {α : Type} (g : GeoOps α) (p : α) (f : Pt) : Pt :=
  if g.containsPt p f then f else g.pickInside p f

/-- Update one element of a layered element store. -/
def updEl {α : Type} [Inhabited α] (mb : Array (Array (SupportElement α)))
    (li idx : Nat) (f : SupportElement α → SupportElement α) :
    Array (Array (SupportElement α)) :=
  mb.set! li ((mb[li]!).set! idx (f ((mb[li]!)[idx]!)))

/-- Clear the transient marked flag of every element of one layer
(TreeSupport.cpp:2510-2513 and 2526-2528). -/
def clearMarks {α : Type} [Inhabited α] (mb : Array (Array (SupportElement α)))
    (li : Nat) : Array (Array (SupportElement α)) :=
  mb.set! li ((mb[li]!).map
    (fun e => { e with state := { e.state with marked := false } }))

/-- set_points_on_areas (TreeSupport.cpp:2361-2389): from an element whose
result point is set, place every parent on the layer above (when its result
point is still unset) via move_inside_if_outside and mark it.  An element
with an unset result point only logs an error and changes nothing. -/
def setPointsOnAreas {α : Type} [Inhabited α] (g : GeoOps α)
    (mb : Array (Array (SupportElement α))) (li idx : Nat) :
    Array (Array (SupportElement α)) :=
  let elem := (mb[li]!)[idx]!
  match elem.state.result_on_layer with
  | none => mb
  | some rop =>
    if li + 1 < mb.size then
      mb.set! (li + 1) (elem.parents.foldl
        (fun la pidx =>
          let ne := la[pidx]!
          let st := ne.state
          let st :=
            if st.result_on_layer = none then
              { st with
                result_on_layer := some (moveInsideIfOutside g ne.influence_area rop) }
            else st
          la.set! pidx { ne with state := { st with marked := true } })
        (mb[li + 1]!))
    else mb

/-- set_to_model_contact_simple (TreeSupport.cpp:2391-2396). -/
def setToModelContactSimple {α : Type} (g : GeoOps α) (e : SupportElement α) :
    SupportElement α :=
  { e with state := { e.state with
      result_on_layer := some (moveInsideIfOutside g e.influence_area e.state.next_position) } }

/-- The upward walk of set_to_model_contact_to_model_gracious
(TreeSupport.cpp:2415-2428): climb the single-parent chain while the
influence area intersects the placeable area of the layer, remembering the
highest such element; stop at a merge point. -/
def graciousWalk {α : Type} [Inhabited α] (g : GeoOps α)
    (cfg : TreeSupportSettings) (vol : VolumeOracle α) :
    Nat → Array (Array (SupportElement α)) → Nat → Nat →
    Option (Nat × Nat) → Option (Nat × Nat)
  | 0, _, _, _, last => last
  | fuel + 1, mb, lc, idx, last =>
    let elem := (mb[lc]!)[idx]!
    if !(g.isEmpty (g.inter elem.influence_area
        (vol.getPlaceableAreas (cfg.collRadius elem.state) (lc : Int)))) then
      let last := some (lc, idx)
      if elem.parents.length ≠ 1 then last
      else graciousWalk g cfg vol fuel mb (lc + 1) elem.parents.head! last
    else last

/-- The deletion walk of set_to_model_contact_to_model_gracious
(TreeSupport.cpp:2438-2443): mark every element of the single-parent chain
below the found anchor as deleted. -/
def markChainDeleted {α : Type} [Inhabited α] :
    Nat → Array (Array (SupportElement α)) → Nat → Nat → Nat → Nat →
    Array (Array (SupportElement α))
  | 0, mb, _, _, _, _ => mb
  | fuel + 1, mb, lc, idx, tl, ti =>
    if lc = tl ∧ idx = ti then mb
    else
      let mb := updEl mb lc idx
        (fun e => { e with state := { e.state with deleted := true } })
      let e := (mb[lc]!)[idx]!
      markChainDeleted fuel mb (lc + 1) e.parents.head! tl ti

/-- set_to_model_contact_to_model_gracious (TreeSupport.cpp:2405-2450): on
a successful walk, delete the chain below the anchor and set the anchor
result point; otherwise demote the element to non-gracious and place it
where it is. -/
def setToModelContactGracious {α : Type} [Inhabited α] (g : GeoOps α)
    (cfg : TreeSupportSettings) (vol : VolumeOracle α)
    (mb : Array (Array (SupportElement α))) (li idx : Nat) :
    Array (Array (SupportElement α)) :=
  match graciousWalk g cfg vol mb.size mb li idx none with
  | none =>
    let mb := updEl mb li idx
      (fun e => { e with state := { e.state with to_model_gracious := false } })
    updEl mb li idx (setToModelContactSimple g)
  | some (tl, ti) =>
    let mb := markChainDeleted mb.size mb li idx tl ti
    updEl mb tl ti (fun e =>
      { e with state := { e.state with
          result_on_layer := some (moveInsideIfOutside g e.influence_area e.state.next_position) } })

/-- The per-element body of the main resolver loop
(TreeSupport.cpp:2529-2562). -/
def resolveElement {α : Type} [Inhabited α] (g : GeoOps α)
    (cfg : TreeSupportSettings) (vol : VolumeOracle α)
    (mb : Array (Array (SupportElement α))) (li idx : Nat) :
    Array (Array (SupportElement α)) :=
  let e := (mb[li]!)[idx]!
  let mb :=
    if e.state.result_on_layer = none then
      if e.state.to_buildplate ||
         (decide (e.state.distance_to_top < cfg.min_dtt_to_model) && !e.state.supports_roof) then
        updEl mb li idx (fun e => { e with state := { e.state with deleted := true } })
      else if e.state.to_model_gracious then setToModelContactGracious g cfg vol mb li idx
      else updEl mb li idx (setToModelContactSimple g)
    else mb
  let e := (mb[li]!)[idx]!
  let mb :=
    if !e.state.deleted && !e.state.marked && e.state.target_height = (li : Int) then
      updEl mb li idx (fun e => { e with state := { e.state with deleted := true } })
    else mb
  let e := (mb[li]!)[idx]!
  let mb :=
    if e.state.deleted ∧ li + 1 < mb.size then
      mb.set! (li + 1) (e.parents.foldl
        (fun la p =>
          let ne := la[p]!
          la.set! p { ne with state := { ne.state with result_on_layer := none } })
        (mb[li + 1]!))
    else mb
  let e := (mb[li]!)[idx]!
  if !e.state.deleted then setPointsOnAreas g mb li idx else mb

/-- Identity index map used by remove_deleted_elements. -/
def identityMap (n : Nat) : Array Int :=
  (Array.range n).map (fun i => Int.ofNat i)

/-- The inner pop loop of remove_deleted_elements
(TreeSupport.cpp:2469-2473): pop deleted elements from the end of the
layer, recording each as deleted in the index map. -/
def popDeletedGo {α : Type} [Inhabited α] :
    Nat → Array (SupportElement α) → Array Int → Nat →
    Array (SupportElement α) × Array Int
  | 0, layer, mc, _ => (layer, mc)
  | fuel + 1, layer, mc, i =>
    if i < layer.size ∧ (layer.back!).state.deleted then
      let layer := layer.pop
      let mc := mc.set! layer.size (-1)
      popDeletedGo fuel layer mc i
    else (layer, mc)

/-- One layer of remove_deleted_elements (TreeSupport.cpp:2460-2490):
swap-from-the-end compaction of deleted elements, building the index map
for the layer below and remapping parent indices through the map of the
layer above. -/
def rdLayerGo {α : Type} [Inhabited α] :
    Nat → Array (SupportElement α) → Array Int → Array Int → Nat →
    Array (SupportElement α) × Array Int
  | 0, layer, mc, _, _ => (layer, mc)
  | fuel + 1, layer, mc, mp, i =>
    if i < layer.size then
      if (layer[i]!).state.deleted then
        let mc := if mc.isEmpty then identityMap layer.size else mc
        let pm := popDeletedGo (layer.size + 1) layer mc i
        let layer := pm.1
        let mc := pm.2
        if i + 1 < layer.size then
          let back := layer.back!
          let layer := (layer.pop).set! i back
          let mc := (mc.set! i (-1)).set! layer.size (i : Int)
          rdLayerGo fuel layer mc mp i
        else rdLayerGo fuel layer mc mp i
      else
        let e := layer[i]!
        let e :=
          if !mp.isEmpty then
            { e with parents := e.parents.map (fun p => (mp[p]!).toNat) }
          else e
        rdLayerGo fuel (layer.set! i e) mc mp (i + 1)
    else (layer, mc)

/-- remove_deleted_elements (TreeSupport.cpp:2453-2493): compact every
layer from the top down, threading the index maps so parent indices stay
consistent. -/
def removeDeletedElements {α : Type} [Inhabited α]
    (mb : Array (Array (SupportElement α))) :
    Array (Array (SupportElement α)) :=
  ((List.range mb.size).reverse.foldl
    (fun (acc : Array (Array (SupportElement α)) × Array Int) li =>
      let layer := acc.1[li]!
      let r := rdLayerGo (2 * layer.size + 2) layer #[] acc.2 0
      (acc.1.set! li r.1, r.2))
    (mb, #[])).1

/-- create_nodes_from_area (TreeSupport.cpp:2500-2614): initialize the
result points on layer zero, resolve every layer bottom-up, then compact
the deleted elements. -/
def createNodesFromArea {α : Type} [Inhabited α] (g : GeoOps α)
    (cfg : TreeSupportSettings) (vol : VolumeOracle α)
    (mb0 : Array (Array (SupportElement α))) :
    Array (Array (SupportElement α)) :=
  let mb := if 1 < mb0.size then clearMarks mb0 1 else mb0
  let n0 := (mb[0]!).size
  let mb := (List.range n0).foldl
    (fun mb i =>
      let mb := updEl mb 0 i (fun e =>
        { e with state := { e.state with
            result_on_layer := some (moveInsideIfOutside g e.influence_area e.state.next_position) } })
      setPointsOnAreas g mb 0 i) mb
  let mb := (List.range' 1 (mb.size - 1)).foldl
    (fun mb li =>
      let mb := if li + 1 < mb.size then clearMarks mb (li + 1) else mb
      (List.range (mb[li]!).size).foldl
        (fun mb idx => resolveElement g cfg vol mb li idx) mb) mb
  removeDeletedElements mb

/-! ### A concrete executable geometry instance

Modelled from the spec: polygon sets are represented as finite unions of
axis-aligned unit cells of one millimeter (1000000 scaled units); union,
intersection and difference are the set operations, offsetting dilates or
erodes by whole cells (Chebyshev balls), the area of a set is its cell
count times the cell area.  This rasterized model realizes the polygon
algebra the spec describes for axis-aligned inputs and makes the embedded
control flow evaluable on concrete data. -/

/-- A polygon set as a finite set of unit cells. -/
abbrev Cells := Finset (Int × Int)

/-- Cell side length in scaled units (one millimeter). -/
def cellSide : Int := 1000000

/-- The Chebyshev ball of radius k in cell coordinates. -/
def chebBall (k : Nat) : Finset (Int × Int) :=
  Finset.Icc (-(k : Int)) (k : Int) ×ˢ Finset.Icc (-(k : Int)) (k : Int)

/-- Dilation by k cells. -/
def dilateCells (p : Cells) (k : Nat) : Cells :=
  (p ×ˢ chebBall k).image (fun q => (q.1.1 + q.2.1, q.1.2 + q.2.2))

/-- Erosion by k cells. -/
def erodeCells (p : Cells) (k : Nat) : Cells :=
  p.filter (fun c => ∀ v ∈ chebBall k, (c.1 + v.1, c.2 + v.2) ∈ p)

/-- Offset by a scaled distance: dilate or erode by the corresponding whole
number of cells. -/
def cellsOffset (p : Cells) (d : Int) : Cells :=
  if 0 ≤ d then dilateCells p (d / cellSide).toNat
  else erodeCells p ((-d) / cellSide).toNat

/-- Bounding box of a cell set in scaled coordinates. -/
def cellsExtents (p : Cells) : Option Box :=
  if h : p.Nonempty then
    let xs := p.image Prod.fst
    let ys := p.image Prod.snd
    some
      ⟨⟨(xs.min' (h.image Prod.fst)) * cellSide, (ys.min' (h.image Prod.snd)) * cellSide⟩,
       ⟨((xs.max' (h.image Prod.fst)) + 1) * cellSide, ((ys.max' (h.image Prod.snd)) + 1) * cellSide⟩⟩
  else none

/-- The cell containing a scaled point (floor division). -/
def cellOf (pt : Pt) : Int × Int := (Int.fdiv pt.x cellSide, Int.fdiv pt.y cellSide)

/-- Point containment. -/
def cellsContains (p : Cells) (pt : Pt) : Bool := decide (cellOf pt ∈ p)

/-- A deterministic interior point of a non-empty cell set: the center of
the lexicographically least cell. -/
def cellsPick (p : Cells) (pt : Pt) : Pt :=
  if h : p.Nonempty then
    let xs := p.image Prod.fst
    let cx := xs.min' (h.image Prod.fst)
    let ys := (p.filter (fun c => c.1 = cx)).image Prod.snd
    if h2 : ys.Nonempty then
      ⟨cx * cellSide + cellSide / 2, (ys.min' h2) * cellSide + cellSide / 2⟩
    else pt
  else pt

/-- The concrete geometry instance over unit cells. -/
def cellsGeo : GeoOps Cells :=
  { emptyP := ∅
    isEmpty := fun p => decide (p = ∅)
    union1 := id
    union2 := fun a b => a ∪ b
    inter := fun a b => a ∩ b
    diffP := fun a b => a \ b
    diffClipped := fun a b => a \ b
    offsetP := cellsOffset
    offsetPolylines := cellsOffset
    toPolylines := id
    simplifyP := fun p _ => p
    clipBox := fun p _ => p
    areaP := fun p => (p.card : Int) * cellSide * cellSide
    extentsP := cellsExtents
    containsPt := cellsContains
    pickInside := cellsPick }

/-- A volume oracle with empty forbidden zones and the identity radius
ladder: the least constrained environment, sufficient for exercising the
control flow on concrete data. -/
def emptyOracle : VolumeOracle Cells :=
  { getCollision := fun _ _ _ => ∅
    getAvoidance := fun _ _ _ _ _ => ∅
    getPlaceableAreas := fun _ _ => ∅
    getWallRestriction := fun _ _ _ => ∅
    ceilRadius := fun r _ => r }

/-- A concrete configuration: one-millimeter branch radius growing by one
millimeter per effective-radius-height step, slow move one millimeter, fast
move two millimeters, no elephant foot. -/
def demoConfig : TreeSupportSettings :=
  { xy_distance := 1000000
    xy_min_distance := 1000000
    maximum_move_distance := 2000000
    maximum_move_distance_slow := 1000000
    branch_radius := 1000000
    diameter_scale_bp_radius := 0
    diameter_angle_scale_factor := 0
    min_dtt_to_model := 5
    max_to_model_radius_increase := 10000000
    tip_layers := 3
    support_rests_on_model := true
    collRadius := fun s => (1 + (s.effective_radius_height : Int)) * 1000000
    realRadius := fun s => (1 + (s.effective_radius_height : Int)) * 1000000 }

/-- A baseline element state for concrete scenarios. -/
def baseState : SupportElementState :=
  { target_height := 0
    target_position := ⟨0, 0⟩
    next_position := ⟨0, 0⟩
    layer_idx := 0
    effective_radius_height := 0
    to_buildplate := false
    distance_to_top := 1
    result_on_layer := none
    increased_to_model_radius := 0
    to_model_gracious := true
    elephant_foot_increases := 0
    use_min_xy_dist := false
    supports_roof := false
    dont_move_until := 0
    can_use_safe_radius := true
    missing_roof_layers := 0
    skip_ovalisation := false
    last_area_increase := defaultAreaIncrease
    deleted := false
    marked := false }

/-- A merging-stage element over cells: empty to-build-plate channel (a
to-model element), bounding box derived from the influence area as the
pipeline does. -/
def mkMergingEl (st : SupportElementState) (inf tmd : Cells) (ps : List Nat) :
    SupportElementMerging Cells :=
  { state := st
    parents := ps
    areas := { influence_areas := inf, to_bp_areas := ∅, to_model_areas := tmd }
    bbox_data := setBBox ((cellsExtents inf).getD default) }

/-- Element A of the merger scenario: radius 1 mm, cell at the origin, not
anchored to a roof. -/
def cA : SupportElementMerging Cells :=
  mkMergingEl { baseState with next_position := ⟨500000, 500000⟩ } {(0, 0)} {(0, 0)} [0]

/-- Element B of the merger scenario: radius 1 mm, cell two millimeters to
the right, anchored to a roof. -/
def cB : SupportElementMerging Cells :=
  mkMergingEl { baseState with supports_roof := true, next_position := ⟨2500000, 500000⟩ }
    {(2, 0)} {(2, 0)} [1]

/-- Element C of the merger scenario: radius 3 mm, same cell as B, not
anchored to a roof. -/
def cC : SupportElementMerging Cells :=
  mkMergingEl { baseState with effective_radius_height := 2, next_position := ⟨2500000, 500000⟩ }
    {(2, 0)} {(2, 0)} [2]

/-- One merger run on the concrete scenario layer (layer five, one worker
thread, identity AABB-tree reorder). -/
def c6run (l : List (SupportElementMerging Cells)) : List (SupportElementMerging Cells) :=
  mergeInfluenceAreas cellsGeo demoConfig emptyOracle 5 1 id l

/-- A list of index ranges forms a contiguous chain from s to e: each range
starts where the previous one ended. -/
def ChainCover : Nat → List (Nat × Nat) → Nat → Prop
  | s, [], e => s = e
  | s, r :: rest, e => s = r.1 ∧ r.1 ≤ r.2 ∧ ChainCover r.2 rest e

/-- The bucket list produced by one folding round when no pair of elements
merges: adjacent ranges concatenate. -/
def pairup : List (Nat × Nat) → List (Nat × Nat)
  | b0 :: b1 :: rest => (b0.1, b1.2) :: pairup rest
  | l => l

/-- The area-increase setting of the bypass-merge scenario: a regular move
with the minimum xy distance. -/
def c4Setting : AreaIncreaseSettings :=
  { type := AvoidanceType.Slow
    increase_speed := 0
    increase_radius := false
    no_error := true
    use_min_distance := true
    move := true }

/-- A no-move setting. -/
def c4SettingNoMove : AreaIncreaseSettings :=
  { type := AvoidanceType.Slow
    increase_speed := 0
    increase_radius := true
    no_error := true
    use_min_distance := false
    move := false }

/-- The element state of the bypass-merge scenario: a build-plate element
well below the tip (distance to top five, tip layers three in the demo
configuration). -/
def c4State : SupportElementState :=
  { baseState with to_buildplate := true, distance_to_top := 5 }

/-- The tip state produced by the tip-placer scenario. -/
def c7WitnessState : SupportElementState :=
  (addPointAsInfluenceArea ⟨true, 9, false, false⟩ [] ⟨0, 0⟩ LineStatus.TO_BP 0 3 2
    false false).getD baseState

/-- Layer-zero element of the resolver scenario: influence cell at the
origin, its parent is the element zero of layer one. -/
def c1e0 : SupportElement Cells :=
  { state := { baseState with
        to_buildplate := true, target_height := 1,
        next_position := ⟨500000, 500000⟩, layer_idx := 0 }
    parents := [0]
    influence_area := {(0, 0)} }

/-- Layer-one element of the resolver scenario: its influence cell sits one
hundred millimeters away from the child influence area (the situation the
source comments document arising after merges, TreeSupport.cpp:2380-2382). -/
def c1p0 : SupportElement Cells :=
  { state := { baseState with
        to_buildplate := true, target_height := 1,
        next_position := ⟨100500000, 500000⟩, layer_idx := 1 }
    parents := []
    influence_area := {(100, 0)} }

/-- The two-layer element store of the resolver scenario. -/
def c1mb : Array (Array (SupportElement Cells)) := #[#[c1e0], #[c1p0]]

/-! ## Theorems -/

/-- Claim C8: coordinate validation fails fast exactly on out-of-range
input: validate_range throws its domain exception if and only if the
absolute value of a coordinate exceeds two to the thirtieth power
(65536 * 16384); a magnitude of exactly that bound passes; and the
collection version throws exactly when some contained point is out of
range. -/
theorem c8_validate_range_iff (p : Pt) (ps : List Pt) :
    (validateRangeFails p = true ↔ |p.x| > 2 ^ 30 ∨ |p.y| > 2 ^ 30) ∧
    (validateRangeFails ⟨2 ^ 30, 2 ^ 30⟩ = false) ∧
    (validateRangeFailsPoints ps = true ↔ ∃ q ∈ ps, validateRangeFails q = true) ∧
    (∀ pss : List (List Pt), validateRangeFailsPolygons pss = true ↔
      ∃ poly ∈ pss, ∃ q ∈ poly, validateRangeFails q = true) := by
  refine ⟨?_, by decide, ?_, ?_⟩
  · have h30 : (65536 * 16384 : Int) = 2 ^ 30 := by norm_num
    simp only [validateRangeFails, Bool.or_eq_true, decide_eq_true_eq, h30, lt_abs]
    tauto
  · simp [validateRangeFailsPoints, List.any_eq_true]
  · intro pss
    simp [validateRangeFailsPolygons, validateRangeFailsPoints, List.any_eq_true]

/-- Claim C7: every tip element emitted from a sampled point with a given
status has distance_to_top and effective_radius_height zero (the emission
sites pass zero for the tip distance), reaches the build plate exactly for
the TO_BP and TO_BP_SAFE statuses, may use the safe radius exactly for the
two SAFE statuses, and is gracious exactly when it reaches the build plate
or carries one of the TO_MODEL_GRACIOUS statuses. -/
theorem c7_tip_state_fields (cfg : TipConfig) (already : List Pt) (p : Pt)
    (status : LineStatus) (insertLayer : Int) (dmu : Nat) (roof skipOval : Bool)
    (st : SupportElementState)
    (h : addPointAsInfluenceArea cfg already p status 0 insertLayer dmu roof skipOval
        = some st) :
    st.distance_to_top = 0 ∧ st.effective_radius_height = 0 ∧
    (st.to_buildplate = true ↔
      status = LineStatus.TO_BP ∨ status = LineStatus.TO_BP_SAFE) ∧
    (st.can_use_safe_radius = true ↔
      status = LineStatus.TO_BP_SAFE ∨ status = LineStatus.TO_MODEL_GRACIOUS_SAFE) ∧
    (st.to_model_gracious = true ↔
      st.to_buildplate = true ∨ status = LineStatus.TO_MODEL_GRACIOUS ∨
        status = LineStatus.TO_MODEL_GRACIOUS_SAFE) := by
  unfold addPointAsInfluenceArea at h
  simp only [] at h
  split at h
  · exact absurd h (by simp)
  · split at h
    · exact absurd h (by simp)
    · have h2 := Option.some.inj h
      subst h2
      refine ⟨rfl, rfl, ?_, ?_, ?_⟩ <;> cases status <;> simp

/-- Witness for C7: a build-plate tip evaluated concretely. -/
theorem c7_witness :
    addPointAsInfluenceArea ⟨true, 9, false, false⟩ [] ⟨0, 0⟩ LineStatus.TO_BP 0 3 2
        false false = some c7WitnessState ∧
    (c7WitnessState.distance_to_top = 0 ∧ c7WitnessState.effective_radius_height = 0 ∧
    (c7WitnessState.to_buildplate = true ↔
      LineStatus.TO_BP = LineStatus.TO_BP ∨ LineStatus.TO_BP = LineStatus.TO_BP_SAFE) ∧
    (c7WitnessState.can_use_safe_radius = true ↔
      LineStatus.TO_BP = LineStatus.TO_BP_SAFE ∨
        LineStatus.TO_BP = LineStatus.TO_MODEL_GRACIOUS_SAFE) ∧
    (c7WitnessState.to_model_gracious = true ↔
      c7WitnessState.to_buildplate = true ∨
        LineStatus.TO_BP = LineStatus.TO_MODEL_GRACIOUS ∨
        LineStatus.TO_BP = LineStatus.TO_MODEL_GRACIOUS_SAFE)) :=
  ⟨rfl, c7_tip_state_fields ⟨true, 9, false, false⟩ [] ⟨0, 0⟩ LineStatus.TO_BP 3 2
    false false c7WitnessState rfl⟩

/-- Claim C3: after a successful area-increase setting the child state has
can_use_safe_radius exactly when the setting did not use the Fast
avoidance, and keeps use_min_xy_dist only when the setting used the
minimum distance (so a regular-distance success always clears it). -/
theorem c3_safe_radius_and_min_xy_update (cfg : TreeSupportSettings)
    (s : AreaIncreaseSettings) (pr : Option Pt) (r : SupportElementState) :
    ((applyAreaIncreaseSuccess cfg s pr r).1.can_use_safe_radius = true ↔
      s.type ≠ AvoidanceType.Fast) ∧
    (applyAreaIncreaseSuccess cfg s pr r).1.use_min_xy_dist
      = (r.use_min_xy_dist && s.use_min_distance) := by
  unfold applyAreaIncreaseSuccess
  constructor
  · split <;> split <;> simp
  · split <;> split <;> simp_all

/-- Claim C9: on a layer where both the base polygons and the roof polygons
are non-empty, InterfaceAreaOverwritesSupport (the spec name
InterfaceOverwritesBase) replaces the base by its difference with the roof,
SupportAreaOverwritesInterface (the spec name BaseOverwritesInterface)
replaces the roof by its difference with the base, and Nothing leaves both
unchanged. -/
theorem c9_interface_preference {α : Type} (g : GeoOps α) (base roofP : α)
    (hb : g.isEmpty base = false) (hr : g.isEmpty roofP = false) :
    applyInterfacePref g InterfacePref.InterfaceAreaOverwritesSupport base roofP
      = (g.diffP base roofP, roofP) ∧
    applyInterfacePref g InterfacePref.SupportAreaOverwritesInterface base roofP
      = (base, g.diffP roofP base) ∧
    applyInterfacePref g InterfacePref.Nothing base roofP = (base, roofP) := by
  unfold applyInterfacePref
  rw [hb, hr]
  simp

/-- Witness for C9: the three preferences evaluated on concrete non-empty
cell sets. -/
theorem c9_witness :
    applyInterfacePref cellsGeo InterfacePref.InterfaceAreaOverwritesSupport
        ({(0, 0)} : Cells) ({(1, 0)} : Cells)
      = (cellsGeo.diffP {(0, 0)} {(1, 0)}, ({(1, 0)} : Cells)) ∧
    applyInterfacePref cellsGeo InterfacePref.SupportAreaOverwritesInterface
        ({(0, 0)} : Cells) ({(1, 0)} : Cells)
      = (({(0, 0)} : Cells), cellsGeo.diffP {(1, 0)} {(0, 0)}) ∧
    applyInterfacePref cellsGeo InterfacePref.Nothing
        ({(0, 0)} : Cells) ({(1, 0)} : Cells)
      = (({(0, 0)} : Cells), ({(1, 0)} : Cells)) :=
  c9_interface_preference cellsGeo {(0, 0)} {(1, 0)} (by decide) (by decide)

/-- Claim C10: safe_union maps non-empty input to non-empty output.  The
plain union is returned when it survives; otherwise the result is the
union of the outward offsets of the line-ified inputs, whose
non-emptiness is precisely the soundness of the documented workaround
(spec: the safe_union fallback offsets line-ified input by about 0.002 mm;
the hypothesis states it for the given inputs). -/
theorem c10_safe_union_nonempty {α : Type} (g : GeoOps α) (first second : α)
    (hne : g.isEmpty first = false ∨ g.isEmpty second = false)
    (hfb : g.isEmpty (g.union2 (g.offsetPolylines (g.toPolylines first) 2000)
        (g.offsetPolylines (g.toPolylines second) 2000)) = false) :
    g.isEmpty (safeUnionP g first second) = false := by
  unfold safeUnionP
  have hcond : (!g.isEmpty first || !g.isEmpty second) = true := by
    rcases hne with h | h <;> simp [h]
  rw [if_pos hcond]
  simp only []
  split
  · exact hfb
  · simp_all

/-- Witness for C10: a one-cell first argument and an empty second argument
evaluated concretely. -/
theorem c10_witness :
    cellsGeo.isEmpty (safeUnionP cellsGeo ({(0, 0)} : Cells) (∅ : Cells)) = false :=
  c10_safe_union_nonempty cellsGeo {(0, 0)} ∅ (Or.inl (by decide)) (by decide)

/-- Claim C2 (code bug): the collision-avoidance nudge of the organic
smoother does not move the sphere center by min(depth + 0.1 mm, 0.5 mm).
At depth 0.3 mm with the deepest collision 0.3 mm straight to the left of
the center, the reciprocal-norm argument is exact (first conjunct), the
nudged center lands 4/25 mm = nudge_dist squared to the right (second
conjunct), while min(max(0, depth + 0.1), 0.5) = 2/5 mm (third conjunct),
and the two displacements differ (fourth conjunct): the source scales the
already nudge_dist-long nudge_vector by nudge_dist a second time
(TreeSupport.cpp:3630-3631). -/
theorem c2_organic_nudge_squared :
    (10 : Rat) / 3 * ((10 : Rat) / 3) *
        (((0 : Rat) - -(3 / 10)) * ((0 : Rat) - -(3 / 10)) +
          ((0 : Rat) - 0) * ((0 : Rat) - 0)) = 1 ∧
    organicNudgeStep (0, 0) (-(3 / 10), 0) (3 / 10) (10 / 3) = (4 / 25, 0) ∧
    min (max 0 ((3 : Rat) / 10 + 1 / 10)) (1 / 2) = 2 / 5 ∧
    (4 : Rat) / 25 ≠ 2 / 5 := by
  refine ⟨by norm_num, ?_, by norm_num, by norm_num⟩
  unfold organicNudgeStep
  norm_num

/-- Claim C4 as stated is false: an element produced by a successful
area-increase setting with use_min_distance true need not bypass merging.
With the demo configuration, the setting (move, use_min_distance) and an
element five layers below the tip (tip_layers three), the produced row
keeps a non-empty to-build-plate channel and is routed to the merge
candidates (some false), not placed into the output layer (some true). -/
theorem c4_counterexample :
    ¬ (∀ (g : GeoOps Cells) (cfg : TreeSupportSettings) (vol : VolumeOracle Cells)
        (layerIdx : Int) (s : AreaIncreaseSettings) (pr : Option Pt)
        (r : SupportElementState) (inc tbp tmd : Cells) (ps : List Nat),
        (s.move = false ∨ s.use_min_distance = true) →
        mergingAreaRoute g (buildMergingArea g cfg vol layerIdx s pr r inc tbp tmd ps)
          = some true) := by
  intro h
  have hc := h cellsGeo demoConfig emptyOracle 5 c4Setting none c4State
    {(0, 0)} {(0, 0)} ∅ [0] (Or.inr rfl)
  exact absurd hc (by decide)

/-- Claim C4, amended: an element produced by a successful setting with
move false, or with use_min_distance true while the element is within
tip_layers of the tip, bypasses merging: its to-build-plate and to-model
channels stay empty, the routing pass moves it to the output layer before
the merger runs, and it never enters the merge-candidate list (so its
influence area is exactly the computed one, untouched by the merger). -/
theorem c4_bypass_merge_amended {α : Type} (g : GeoOps α)
    (cfg : TreeSupportSettings) (vol : VolumeOracle α) (layerIdx : Int)
    (s : AreaIncreaseSettings) (pr : Option Pt) (r : SupportElementState)
    (inc tbp tmd : α) (ps : List Nat)
    (hlaw : g.isEmpty g.emptyP = true)
    (hcond : s.move = false ∨
      (s.use_min_distance = true ∧ r.distance_to_top < cfg.tip_layers))
    (hne : g.isEmpty
      (buildMergingArea g cfg vol layerIdx s pr r inc tbp tmd ps).areas.influence_areas
      = false) :
    mergingAreaRoute g (buildMergingArea g cfg vol layerIdx s pr r inc tbp tmd ps)
      = some true ∧
    placeConstructed g [buildMergingArea g cfg vol layerIdx s pr r inc tbp tmd ps]
      = ([buildMergingArea g cfg vol layerIdx s pr r inc tbp tmd ps], []) := by
  have hbp : (applyAreaIncreaseSuccess cfg s pr r).2 = true := by
    unfold applyAreaIncreaseSuccess
    rcases hcond with h | ⟨h1, h2⟩
    · simp [h]
    · simp [h1, h2]
  have htb : (buildMergingArea g cfg vol layerIdx s pr r inc tbp tmd ps).areas.to_bp_areas
      = g.emptyP := by
    unfold buildMergingArea
    simp only [hbp]
    simp
  have htm : (buildMergingArea g cfg vol layerIdx s pr r inc tbp tmd ps).areas.to_model_areas
      = g.emptyP := by
    unfold buildMergingArea
    simp only [hbp]
    simp
  have hroute : mergingAreaRoute g (buildMergingArea g cfg vol layerIdx s pr r inc tbp tmd ps)
      = some true := by
    unfold mergingAreaRoute
    rw [hne, htb, htm, hlaw]
    simp
  refine ⟨hroute, ?_⟩
  unfold placeConstructed
  simp [hroute]

/-- Witness for C4 (amended): a no-move setting evaluated concretely. -/
theorem c4_witness :
    mergingAreaRoute cellsGeo (buildMergingArea cellsGeo demoConfig emptyOracle 5
        c4SettingNoMove none c4State {(0, 0)} ∅ ∅ [0]) = some true ∧
    placeConstructed cellsGeo [buildMergingArea cellsGeo demoConfig emptyOracle 5
        c4SettingNoMove none c4State {(0, 0)} ∅ ∅ [0]]
      = ([buildMergingArea cellsGeo demoConfig emptyOracle 5 c4SettingNoMove none c4State
          {(0, 0)} ∅ ∅ [0]], []) :=
  c4_bypass_merge_amended cellsGeo demoConfig emptyOracle 5 c4SettingNoMove none c4State
    {(0, 0)} ∅ ∅ [0] (by decide) (Or.inl rfl) (by decide)

/-- Claim C5: the pairwise merge predicate returns false and leaves both
elements unchanged whenever the two elements differ in to_model_gracious,
or differ in use_min_xy_dist, or the computed intersection (the
smaller-collision-radius channel inflated by the real radius difference
against the collision, intersected with the bigger channel) has area at
most the tiny-area threshold, or that intersection eroded by 0.025 mm has
area at most the tiny-area threshold. -/
theorem c5_merge_abort_conditions {α : Type} (g : GeoOps α)
    (cfg : TreeSupportSettings) (vol : VolumeOracle α) (layerIdx : Int)
    (dst src : SupportElementMerging α)
    (h : dst.state.to_model_gracious ≠ src.state.to_model_gracious ∨
         dst.state.use_min_xy_dist ≠ src.state.use_min_xy_dist ∨
         g.areaP (mergeIntersectArea g cfg vol layerIdx dst src) ≤ tinyAreaThreshold ∨
         g.areaP (g.offsetP (mergeIntersectArea g cfg vol layerIdx dst src) (-25000))
           ≤ tinyAreaThreshold) :
    mergeTwoElements g cfg vol layerIdx dst src = (false, dst, src) := by
  unfold mergeTwoElements
  simp only []
  rcases h with h | h | h | h
  · rw [if_pos (Or.inl h)]
  · rw [if_pos (Or.inr h)]
  all_goals split_ifs <;> try rfl
  all_goals exact absurd h (by assumption)

/-- Witness for C5: a gracious and a non-gracious element evaluated
concretely. -/
theorem c5_witness :
    mergeTwoElements cellsGeo demoConfig emptyOracle 5 cA
        { cB with state := { cB.state with to_model_gracious := false } }
      = (false, cA, { cB with state := { cB.state with to_model_gracious := false } }) :=
  c5_merge_abort_conditions cellsGeo demoConfig emptyOracle 5 cA
    { cB with state := { cB.state with to_model_gracious := false } }
    (Or.inl (by decide))

/-- Claim C6 as stated is false: the merger is not idempotent.  On the
concrete three-element layer cA, cB, cC (one worker thread, identity
reorder) the first run merges cB and cC only - cA was compared against the
original cB and cC, and the pair (cA, merged cB-cC) is never tested - and
a second run on the two surviving elements performs a further merge,
changing the element count. -/
theorem c6_counterexample :
    (c6run (c6run [cA, cB, cC])).length ≠ (c6run [cA, cB, cC]).length := by
  decide

/-- Claim C1 (code bug): after the node resolver completes, a surviving
element and its parent can violate the claimed slope bound.  On the
concrete two-layer store c1mb (child influence cell at the origin, parent
influence cell one hundred millimeters away - the post-merge situation the
source comments document at TreeSupport.cpp:2380-2382, and whose debug
assert at TreeSupport.cpp:2583 carries the source annotation that it fails
a lot), both elements survive compaction with the parent link intact, the
resolver places the child at (0.5 mm, 0.5 mm) and the parent at
(100.5 mm, 0.5 mm), and the squared distance exceeds the square of
radius difference plus twice the slow move distance plus a ten-millimeter
epsilon.  The final conjunct shows the violation is independent of the
modelled move_inside kernel: every point whose cell lies in the parent
influence area breaks the bound. -/
theorem c1_resolver_slope_bound_violated :
    (createNodesFromArea cellsGeo demoConfig emptyOracle c1mb).size = 2 ∧
    ((createNodesFromArea cellsGeo demoConfig emptyOracle c1mb)[0]!).size = 1 ∧
    ((createNodesFromArea cellsGeo demoConfig emptyOracle c1mb)[1]!).size = 1 ∧
    (((createNodesFromArea cellsGeo demoConfig emptyOracle c1mb)[0]!)[0]!).parents = [0] ∧
    (((createNodesFromArea cellsGeo demoConfig emptyOracle c1mb)[0]!)[0]!).state.deleted
      = false ∧
    (((createNodesFromArea cellsGeo demoConfig emptyOracle c1mb)[1]!)[0]!).state.deleted
      = false ∧
    (((createNodesFromArea cellsGeo demoConfig emptyOracle c1mb)[0]!)[0]!).state.result_on_layer
      = some ⟨500000, 500000⟩ ∧
    (((createNodesFromArea cellsGeo demoConfig emptyOracle c1mb)[1]!)[0]!).state.result_on_layer
      = some ⟨100500000, 500000⟩ ∧
    (100500000 - 500000 : Int) * (100500000 - 500000) >
      (demoConfig.realRadius c1e0.state - demoConfig.realRadius c1p0.state +
        2 * demoConfig.maximum_move_distance_slow + 10000000) *
      (demoConfig.realRadius c1e0.state - demoConfig.realRadius c1p0.state +
        2 * demoConfig.maximum_move_distance_slow + 10000000) ∧
    (∀ q : Pt, cellOf q ∈ c1p0.influence_area →
      (q.x - 500000) * (q.x - 500000) + (q.y - 500000) * (q.y - 500000) >
        (demoConfig.realRadius c1e0.state - demoConfig.realRadius c1p0.state +
          2 * demoConfig.maximum_move_distance_slow + 10000000) *
        (demoConfig.realRadius c1e0.state - demoConfig.realRadius c1p0.state +
          2 * demoConfig.maximum_move_distance_slow + 10000000)) := by
  refine ⟨by decide, by decide, by decide, by decide, by decide, by decide, by decide,
    by decide, by decide, ?_⟩
  intro q hq
  have hcell : cellOf q = ((100 : Int), (0 : Int)) := by
    have : c1p0.influence_area = ({(100, 0)} : Cells) := rfl
    rw [this, Finset.mem_singleton] at hq
    exact hq
  have hx : Int.fdiv q.x 1000000 = 100 := by
    have := congrArg Prod.fst hcell
    simpa [cellOf, cellSide] using this
  have hxe : q.x / 1000000 = 100 := by
    rw [Int.fdiv_eq_ediv _ (by norm_num)] at hx
    exact hx
  have hxlo : (100000000 : Int) ≤ q.x := by omega
  have hB : demoConfig.realRadius c1e0.state - demoConfig.realRadius c1p0.state +
      2 * demoConfig.maximum_move_distance_slow + 10000000 = 12000000 := by decide
  rw [hB]
  nlinarith [sq_nonneg (q.y - 500000), sq_nonneg (q.x - 500000)]

/-! ### Helper lemmas for the merge-free merger run (claim C6, amended) -/

theorem chainCover_append {l1 l2 : List (Nat × Nat)} {s m e : Nat}
    (h1 : ChainCover s l1 m) (h2 : ChainCover m l2 e) :
    ChainCover s (l1 ++ l2) e := by
  induction l1 generalizing s with
  | nil =>
    have hsm : s = m := h1
    subst hsm
    simpa using h2
  | cons r rest ih =>
    obtain ⟨hs, hr, hrest⟩ := h1
    exact ⟨hs, hr, ih hrest⟩

theorem chainCover_le {l : List (Nat × Nat)} {s e : Nat}
    (h : ChainCover s l e) : s ≤ e := by
  induction l generalizing s with
  | nil => exact h.le
  | cons r rest ih =>
    obtain ⟨hs, hr, hrest⟩ := h
    exact hs ▸ le_trans hr (ih hrest)

theorem chainCover_ranges {l : List (Nat × Nat)} {s e : Nat}
    (h : ChainCover s l e) : ∀ r ∈ l, r.2 ≤ e := by
  induction l generalizing s with
  | nil => intro r hr; cases hr
  | cons r rest ih =>
    obtain ⟨_, _, hrest⟩ := h
    intro q hq
    rcases List.mem_cons.mp hq with rfl | hq2
    · exact chainCover_le hrest
    · exact ih hrest q hq2

theorem bucketsRaw_chain (k b : Nat) :
    ChainCover 0 (bucketsRaw k b) (k * b) := by
  induction k with
  | zero => simp [bucketsRaw, ChainCover]
  | succ k ih =>
    have : bucketsRaw (k + 1) b = bucketsRaw k b ++ [(k * b, k * b + b)] := by
      simp [bucketsRaw, List.range_succ]
    rw [this]
    refine chainCover_append ih ?_
    exact ⟨rfl, Nat.le_add_right _ _, by simp [ChainCover, Nat.succ_mul]⟩

theorem bucketFixup_chain (n nbinit b : Nat) (h1 : 1 ≤ nbinit)
    (h2 : (nbinit - 1) * b ≤ n) :
    ChainCover 0 (bucketFixup n nbinit b (bucketsRaw nbinit b)) n := by
  obtain ⟨m, rfl⟩ : ∃ m, nbinit = m + 1 := ⟨nbinit - 1, (Nat.succ_pred_eq_of_pos h1).symm⟩
  have h2m : m * b ≤ n := by simpa using h2
  have hsplit : bucketsRaw (m + 1) b = bucketsRaw m b ++ [(m * b, m * b + b)] := by
    simp [bucketsRaw, List.range_succ]
  have hlast : (bucketsRaw (m + 1) b).getLast? = some (m * b, m * b + b) := by
    rw [hsplit]; exact List.getLast?_concat _
  have hdrop : (bucketsRaw (m + 1) b).dropLast = bucketsRaw m b := by
    rw [hsplit]; exact List.dropLast_concat
  unfold bucketFixup
  rw [hlast]
  simp only []
  split
  · rename_i hge
    rw [hdrop]
    refine chainCover_append (bucketsRaw_chain m b) ?_
    refine ⟨rfl, by omega, ?_⟩
    show min (m * b + b) n = n
    omega
  · rename_i hlt
    push_neg at hlt
    have hsm : (m + 1) * b = m * b + b := Nat.succ_mul m b
    refine chainCover_append (bucketsRaw_chain (m + 1) b) ?_
    refine ⟨rfl, by rw [hsm]; omega, ?_⟩
    show n = n
    rfl

theorem bucketData_chain (n tc : Nat) (hn : 2 ≤ n) :
    ChainCover 0 (bucketData n tc).1 n := by
  unfold bucketData
  simp only []
  split
  · rename_i hge
    refine bucketFixup_chain n ((n + 2) / 4) 4 ?_ ?_
    · have : 4 ≤ n + 2 := by omega
      exact Nat.one_le_div_iff (by norm_num) |>.mpr this
    · have hdm : (n + 2) / 4 * 4 ≤ n + 2 := Nat.div_mul_le_self _ _
      have h1 : 1 ≤ (n + 2) / 4 := Nat.one_le_div_iff (by norm_num) |>.mpr (by omega)
      omega
  · rename_i hlt
    refine bucketFixup_chain n (n / 2) 2 ?_ ?_
    · exact Nat.one_le_div_iff (by norm_num) |>.mpr (by omega)
    · have hdm : n / 2 * 2 ≤ n := Nat.div_mul_le_self _ _
      have h1 : 1 ≤ n / 2 := Nat.one_le_div_iff (by norm_num) |>.mpr (by omega)
      omega

theorem mergeLeavesGo_noMerge {α : Type} [Inhabited α] (g : GeoOps α)
    (cfg : TreeSupportSettings) (vol : VolumeOracle α) (layerIdx : Int)
    (a : Array (SupportElementMerging α))
    (hfree : ∀ i j, i < a.size → j < a.size → i ≠ j →
      mergeStepO g cfg vol layerIdx a[i]! a[j]! = none) :
    ∀ (fuel : Nat) (i j e : Nat), e ≤ a.size → i < j →
      mergeLeavesGo g cfg vol layerIdx fuel a i j e = (a, e) := by
  intro fuel
  induction fuel with
  | zero => intro i j e _ _; rfl
  | succ fuel ih =>
    intro i j e he hij
    unfold mergeLeavesGo
    by_cases h1 : i + 1 < e
    · by_cases h2 : j < e
      · have hnone := hfree i j (by omega) (by omega) (by omega)
        simp only [if_pos h1, if_pos h2, hnone]
        exact ih i (j + 1) e he (by omega)
      · simp only [if_pos h1, if_neg h2]
        exact ih (i + 1) (i + 2) e he (by omega)
    · simp only [if_neg h1]

theorem twoSetsPhase1_noMerge {α : Type} [Inhabited α] (g : GeoOps α)
    (cfg : TreeSupportSettings) (vol : VolumeOracle α) (layerIdx : Int)
    (a : Array (SupportElementMerging α))
    (hfree : ∀ i j, i < a.size → j < a.size → i ≠ j →
      mergeStepO g cfg vol layerIdx a[i]! a[j]! = none) :
    ∀ (fuel : Nat) (d de s sb : Nat), de ≤ s → s < a.size →
      twoSetsPhase1 g cfg vol layerIdx fuel a d de s sb = (a, sb, none) := by
  intro fuel
  induction fuel with
  | zero => intro d de s sb _ _; rfl
  | succ fuel ih =>
    intro d de s sb hdes hs
    unfold twoSetsPhase1
    by_cases h1 : d < de
    · have hnone := hfree d s (by omega) hs (by omega)
      simp only [if_pos h1, hnone]
      exact ih (d + 1) de s sb hdes hs
    · simp only [if_neg h1]

theorem twoSetsOuter_noMerge {α : Type} [Inhabited α] (g : GeoOps α)
    (cfg : TreeSupportSettings) (vol : VolumeOracle α) (layerIdx : Int)
    (a : Array (SupportElementMerging α))
    (hfree : ∀ i j, i < a.size → j < a.size → i ≠ j →
      mergeStepO g cfg vol layerIdx a[i]! a[j]! = none) :
    ∀ (fuel : Nat) (db de sb s se : Nat), de ≤ sb → sb ≤ s → se ≤ a.size →
      twoSetsOuter g cfg vol layerIdx fuel a db de sb s se = (a, de, sb) := by
  intro fuel
  induction fuel with
  | zero => intro db de sb s se _ _ _; rfl
  | succ fuel ih =>
    intro db de sb s se hdesb hsbs hse
    unfold twoSetsOuter
    by_cases h1 : s < se
    · rw [if_pos h1,
        twoSetsPhase1_noMerge g cfg vol layerIdx a hfree (de - db) db de s sb
          (by omega) (by omega)]
      exact ih db de sb (s + 1) se hdesb (by omega) hse
    · rw [if_neg h1]

theorem twoSetsRun_noMerge {α : Type} [Inhabited α] (g : GeoOps α)
    (cfg : TreeSupportSettings) (vol : VolumeOracle α) (layerIdx : Int)
    (a : Array (SupportElementMerging α))
    (hfree : ∀ i j, i < a.size → j < a.size → i ≠ j →
      mergeStepO g cfg vol layerIdx a[i]! a[j]! = none)
    (db de sb se : Nat) (hadj : de = sb) (hse : se ≤ a.size) :
    twoSetsRun g cfg vol layerIdx a db de sb se = (a, se) := by
  unfold twoSetsRun
  rw [twoSetsOuter_noMerge g cfg vol layerIdx a hfree (se - sb) db de sb sb se
    (le_of_eq hadj) le_rfl hse]
  simp [hadj]

theorem round1Go_noMerge {α : Type} [Inhabited α] (g : GeoOps α)
    (cfg : TreeSupportSettings) (vol : VolumeOracle α) (layerIdx : Int)
    (a : Array (SupportElementMerging α))
    (hfree : ∀ i j, i < a.size → j < a.size → i ≠ j →
      mergeStepO g cfg vol layerIdx a[i]! a[j]! = none) :
    ∀ (bs : List (Nat × Nat)) (k : Nat), (∀ r ∈ bs, r.2 ≤ a.size) →
      round1Go g cfg vol layerIdx a bs k = (a, bs) := by
  intro bs
  induction bs with
  | nil => intro k _; cases k <;> rfl
  | cons r rest ih =>
    intro k hbs
    cases k with
    | zero => rfl
    | succ k =>
      unfold round1Go
      have hml : mergeLeaves g cfg vol layerIdx a r.1 r.2 = (a, r.2) :=
        mergeLeavesGo_noMerge g cfg vol layerIdx a hfree _ r.1 (r.1 + 1) r.2
          (hbs r (by simp)) (by omega)
      rw [hml]
      simp only []
      rw [ih k (fun q hq => hbs q (by simp [hq]))]

theorem foldPairs_noMerge {α : Type} [Inhabited α] (g : GeoOps α)
    (cfg : TreeSupportSettings) (vol : VolumeOracle α) (layerIdx : Int)
    (a : Array (SupportElementMerging α))
    (hfree : ∀ i j, i < a.size → j < a.size → i ≠ j →
      mergeStepO g cfg vol layerIdx a[i]! a[j]! = none) :
    ∀ (m : Nat) (bs : List (Nat × Nat)) (c : Nat), bs.length ≤ m →
      ChainCover c bs a.size →
      foldPairs g cfg vol layerIdx a bs = (a, pairup bs) ∧
        ChainCover c (pairup bs) a.size := by
  intro m
  induction m with
  | zero =>
    intro bs c hlen hc
    have : bs = [] := List.length_eq_zero.mp (Nat.le_zero.mp hlen)
    subst this
    exact ⟨rfl, hc⟩
  | succ m ih =>
    intro bs c hlen hc
    match bs with
    | [] => exact ⟨rfl, hc⟩
    | [b] => exact ⟨rfl, hc⟩
    | b0 :: b1 :: rest =>
      obtain ⟨hc0, hb0, hc1⟩ := hc
      obtain ⟨hc1a, hb1, hcrest⟩ := hc1
      have hrun : twoSetsRun g cfg vol layerIdx a b0.1 b0.2 b1.1 b1.2 = (a, b1.2) :=
        twoSetsRun_noMerge g cfg vol layerIdx a hfree b0.1 b0.2 b1.1 b1.2 hc1a
          (chainCover_le hcrest)
      have hlr : rest.length ≤ m := by
        simp only [List.length_cons] at hlen
        omega
      have hrest := ih rest b1.2 hlr hcrest
      constructor
      · unfold foldPairs
        rw [hrun]
        simp only []
        rw [hrest.1]
        rfl
      · exact ⟨hc0, le_trans hb0 (hc1a ▸ hb1), hrest.2⟩

theorem foldRounds_noMerge {α : Type} [Inhabited α] (g : GeoOps α)
    (cfg : TreeSupportSettings) (vol : VolumeOracle α) (layerIdx : Int)
    (a : Array (SupportElementMerging α))
    (hfree : ∀ i j, i < a.size → j < a.size → i ≠ j →
      mergeStepO g cfg vol layerIdx a[i]! a[j]! = none) :
    ∀ (fuel : Nat) (bs : List (Nat × Nat)) (c : Nat), ChainCover c bs a.size →
      ∃ bs2, foldRounds g cfg vol layerIdx fuel a bs = (a, bs2) ∧
        ChainCover c bs2 a.size := by
  intro fuel
  induction fuel with
  | zero => intro bs c hc; exact ⟨bs, rfl, hc⟩
  | succ fuel ih =>
    intro bs c hc
    unfold foldRounds
    by_cases h1 : bs.length > 1
    · rw [if_pos h1]
      obtain ⟨hfp, hcp⟩ := foldPairs_noMerge g cfg vol layerIdx a hfree bs.length bs c
        le_rfl hc
      rw [hfp]
      exact ih (pairup bs) c hcp
    · rw [if_neg h1]
      exact ⟨bs, rfl, hc⟩

theorem flatMap_chain {X : Type} (l : List X) :
    ∀ (bs : List (Nat × Nat)) (c : Nat), ChainCover c bs l.length →
      bs.flatMap (fun r => ((l.drop r.1).take (r.2 - r.1)))
        = (l.drop c).take (l.length - c) := by
  intro bs
  induction bs with
  | nil =>
    intro c hc
    have : c = l.length := hc
    simp [this]
  | cons r rest ih =>
    intro c hc
    obtain ⟨hc0, hr, hrest⟩ := hc
    have hre : r.2 ≤ l.length := chainCover_le hrest
    subst hc0
    rw [List.flatMap_cons, ih r.2 hrest]
    have hsum : l.length - r.1 = (r.2 - r.1) + (l.length - r.2) := by omega
    rw [hsum, List.take_add, List.drop_drop]
    have hrr : r.1 + (r.2 - r.1) = r.2 := by omega
    rw [hrr]

/-- Claim C6, amended: the merger is a no-op, up to the AABB-tree reorder,
on input in which no ordered pair of distinct elements satisfies the
pairwise merge predicate; the output of a first run need not have this
property (a merge changes radii and areas of elements that earlier pairs
were already tested against), so a second run may merge further, as the
counterexample shows. -/
theorem c6_merger_noop_on_merge_free {α : Type} [Inhabited α] (g : GeoOps α)
    (cfg : TreeSupportSettings) (vol : VolumeOracle α) (layerIdx : Int)
    (tc : Nat)
    (reorder : List (SupportElementMerging α) → List (SupportElementMerging α))
    (input : List (SupportElementMerging α))
    (hn : 2 ≤ input.length)
    (hlen : (reorder input).length = input.length)
    (hfree : ∀ i j, i < (reorder input).toArray.size →
      j < (reorder input).toArray.size → i ≠ j →
      mergeStepO g cfg vol layerIdx ((reorder input).toArray[i]!)
        ((reorder input).toArray[j]!) = none) :
    mergeInfluenceAreas g cfg vol layerIdx tc reorder input = reorder input := by
  unfold mergeInfluenceAreas
  have hni : input.isEmpty = false := by
    cases input with
    | nil => simp at hn
    | cons x xs => rfl
  rw [if_neg (by simp [hni])]
  simp only []
  have hsz : (reorder input).toArray.size = input.length := by
    simp [hlen]
  have hchain := bucketData_chain (reorder input).toArray.size tc (by omega)
  rw [round1Go_noMerge g cfg vol layerIdx _ hfree _ _
    (chainCover_ranges hchain)]
  obtain ⟨bs2, hfr, hc2⟩ := foldRounds_noMerge g cfg vol layerIdx _ hfree
    (bucketData (reorder input).toArray.size tc).1.length
    (bucketData (reorder input).toArray.size tc).1 0 hchain
  rw [hfr]
  have hlistlen : (reorder input).toArray.toList.length = (reorder input).toArray.size := by
    simp
  rw [flatMap_chain (reorder input).toArray.toList bs2 0 (by rw [hlistlen]; exact hc2)]
  simp

/-- Witness for C6 (amended): the two-element layer cA, cB, whose pairs all
fail the merge predicate, is returned unchanged. -/
theorem c6_witness :
    mergeInfluenceAreas cellsGeo demoConfig emptyOracle 5 1 id [cA, cB] = [cA, cB] := by
  refine c6_merger_noop_on_merge_free cellsGeo demoConfig emptyOracle 5 1 id [cA, cB]
    (by decide) rfl ?_
  intro i j hi hj hne
  have hsz : (id [cA, cB] : List (SupportElementMerging Cells)).toArray.size = 2 := rfl
  rw [hsz] at hi hj
  interval_cases i <;> interval_cases j <;> first | omega | decide

end TreeSupportProof
